import Mathlib

/-!
Shallow embedding of the course-scheduling core of the CRM_lessons
repository, and proofs about it.

Source files embedded here:
* `Management_Service/main.py`, endpoint `create_course` — duplicate-name
  check, the schedule conflict-resolution loop, the transactional insert of
  the course and its valid schedules, and the notification dispatch.
* `Notification_Service/main.py`, endpoint `send_notification` — computes
  one Celery task per schedule with `eta = fromisoformat(t) - timedelta(hours=1)`.
* `Telegram_Bot/main.py`, coroutine `send_notification_to_user` — the
  reminder worker delivering messages to enrolled users.

Encoding conventions:
* A calendar date is modelled by its day number (`Nat`); a time of day by
  its minutes since midnight (`Nat`).  Python `date`/`time` comparison
  coincides with `Nat` comparison under this standard linearization, and
  dict keying by `date` coincides with keying by the day number.
* `datetime.combine(start_date, start_time)` is the linearization
  `day * 1440 + minutes`; the f-string suffix `"+05:00"` is the fixed UTC
  offset of 300 minutes.  `datetime.fromisoformat` inverts `isoformat`, so
  the ISO-string transport between the two services is the identity on this
  data and is modelled as such.
* External effects (the SQL store's concurrent uniqueness constraint, the
  HTTP status of the notification service, the Telegram send results) are
  oracles passed as explicit parameters.
-/

/-- `schemas.ScheduleCreate` as consumed by `create_course`: the fields read
by the endpoint are `start_date`, `end_date`, `start_time`, `end_time`. -/
structure ScheduleCreate where
  start_date : Nat
  end_date : Nat
  start_time : Nat
  end_time : Nat
deriving DecidableEq, Repr

/-- Rejection reason attached at `main.py:115`. -/
def invalidDateReason : String := "End date is earlier than start date"

/-- Rejection reason attached at `main.py:139`. -/
def timeConflictReason : String := "Time conflict with an already valid schedule"

/-- One entry of `occupied_intervals`: the date key together with a recorded
`{"start_time": ..., "end_time": ...}` pair. -/
abbrev OccEntry : Type := Nat × Nat × Nat

/-- The inner `for interval in occupied_intervals[start_date]` scan
(`main.py:128-132`): the dict lookup by `start_date` is the filter on the
date component, and the early-`break` accumulation of `conflict` is `any`.
The conflict test is `start_time < interval["end_time"] and
end_time > interval["start_time"]`. -/
def hasConflict (occupied : List OccEntry) (s : ScheduleCreate) : Bool :=
  (occupied.filter (fun iv => iv.1 == s.start_date)).any
    (fun iv => decide (s.start_time < iv.2.2) && decide (s.end_time > iv.2.1))

/-- The `for schedule in schedule_data` loop of `create_course`
(`main.py:110-150`), with the loop state (`occupied_intervals`) passed
explicitly.  Each candidate goes to exactly one branch:
`end_date < start_date` → conflicted with `invalidDateReason`;
a conflict against the date's occupied intervals → conflicted with
`timeConflictReason`; otherwise appended to `valid_schedules` and its
interval recorded under its date. -/
def resolveSchedulesAux (occupied : List OccEntry) :
    List ScheduleCreate → List ScheduleCreate × List (ScheduleCreate × String)
  | [] => ([], [])
  | s :: rest =>
    if s.end_date < s.start_date then
      let r := resolveSchedulesAux occupied rest
      (r.1, (s, invalidDateReason) :: r.2)
    else if hasConflict occupied s then
      let r := resolveSchedulesAux occupied rest
      (r.1, (s, timeConflictReason) :: r.2)
    else
      let r :=
        resolveSchedulesAux
          (occupied ++ [(s.start_date, s.start_time, s.end_time)]) rest
      (s :: r.1, r.2)

/-- The conflict-resolution pass of `create_course`: `occupied_intervals`
starts empty on every call (`main.py:108`), and the outputs are
`valid_schedules` and `conflicted_schedules` in encounter order. -/
def resolveSchedules (schedule_data : List ScheduleCreate) :
    List ScheduleCreate × List (ScheduleCreate × String) :=
  resolveSchedulesAux [] schedule_data

example :
    resolveSchedules
      [⟨20067, 20067, 600, 720⟩, ⟨20067, 20067, 660, 780⟩, ⟨20068, 20068, 540, 600⟩] =
      ([⟨20067, 20067, 600, 720⟩, ⟨20068, 20068, 540, 600⟩],
        [(⟨20067, 20067, 660, 780⟩, timeConflictReason)]) := by decide

/-- `schemas.CourseCreate`: `name`, `description`, optional `price`,
`operator_id`. -/
structure CourseCreate where
  name : String
  description : String
  price : Option Int
  operator_id : Nat
deriving DecidableEq, Repr

/-- A row of the `course` table that matters to `create_course`: the
autoincrement id and the inserted payload. -/
structure CourseRow where
  id : Nat
  data : CourseCreate
deriving DecidableEq, Repr

/-- A row of the `schedule_course` table: autoincrement id, the
`course_id` foreign key written at `main.py:169`, and the schedule data. -/
structure ScheduleRow where
  id : Nat
  course_id : Nat
  data : ScheduleCreate
deriving DecidableEq, Repr

/-- The database state visible to `create_course`: the two tables and the
autoincrement counters. -/
structure DB where
  courses : List CourseRow
  schedules : List ScheduleRow
  nextCourseId : Nat
  nextScheduleId : Nat
deriving DecidableEq, Repr

/-- A timezone-aware timestamp: minutes on the linearized calendar plus a
fixed UTC offset in minutes.  `f"\x7bdatetime.combine(start_date, start_time).isoformat()\x7d+05:00"`
produces the value `⟨day * 1440 + minutes, 300⟩`, and
`datetime.fromisoformat` on the notification side recovers the same value,
so the ISO-string transport is the identity on this structure. -/
structure AwareDateTime where
  minutes : Int
  offset : Int
deriving DecidableEq, Repr

/-- `datetime.combine(start_date, start_time)` under the linearization:
total minutes of the combined naive datetime. -/
def combine (day minutesOfDay : Nat) : Nat := day * 1440 + minutesOfDay

/-- The `"+05:00"`-tagged ISO string built for a schedule at
`main.py:178-182`. -/
def scheduleTimeStr (s : ScheduleCreate) : AwareDateTime :=
  ⟨(combine s.start_date s.start_time : Int), 300⟩

/-- `aware - timedelta(hours=h)`: Python datetime arithmetic is exact and
keeps `tzinfo`. -/
def subHours (dt : AwareDateTime) (h : Int) : AwareDateTime :=
  ⟨dt.minutes - h * 60, dt.offset⟩

/-- The Python exceptions that can escape the `async with session.begin()`
block of `create_course`: `fastapi.HTTPException` (a subclass of
`Exception` carrying `status_code` and `detail`) and
`sqlalchemy.exc.IntegrityError`. -/
inductive PyError where
  | http (status_code : Nat) (detail : String)
  | integrity (msg : String)
deriving DecidableEq, Repr

/-- Python `str(e)`: Starlette's `HTTPException.__str__` is
`f"\x7bself.status_code\x7d: \x7bself.detail\x7d"`; for the integrity error we keep its
message. -/
def PyError.str : PyError → String
  | .http status_code detail => toString status_code ++ ": " ++ detail
  | .integrity msg => msg

/-- The message SQLAlchemy attaches to a uniqueness violation; its exact
text does not matter to any claim, only that it is the payload of an
`IntegrityError`. -/
def integrityMsg : String := "duplicate key value violates unique constraint"

/-- The success payload returned by `create_course` (`main.py:204-216`). -/
structure CreateCourseResult where
  message : String
  valid_schedules : List ScheduleCreate
  conflicted_schedules : List (ScheduleCreate × String)
  schedules : List AwareDateTime
  notifications : String
  course_id : Nat
  schedule_ids : List Nat
deriving DecidableEq, Repr

/-- The `for schedule in valid_schedules` insert loop (`main.py:166-182`).
`integrityFail i` is the store oracle: whether the `i`-th insert of the
batch hits the `unique_course_time` constraint (a concurrent-duplicate
race; sequentially the fresh `course_id` cannot collide).  On success it
returns the new rows, `inserted_schedule_ids`, and the `schedules`
ISO-timestamp list; the loop has no `try` around the individual insert, so
the first failing insert raises and abandons the rest. -/
def insertSchedules (integrityFail : Nat → Bool) (course_id : Nat) :
    Nat → Nat → List ScheduleCreate →
    Except PyError (List ScheduleRow × List Nat × List AwareDateTime)
  | _, _, [] => .ok ([], [], [])
  | nextId, i, s :: rest =>
    if integrityFail i then
      .error (.integrity integrityMsg)
    else
      match insertSchedules integrityFail course_id (nextId + 1) (i + 1) rest with
      | .error e => .error e
      | .ok (rows, ids, times) =>
        .ok (⟨nextId, course_id, s⟩ :: rows, nextId :: ids, scheduleTimeStr s :: times)

/-- The body of `async with session.begin()` in `create_course`
(`main.py:96-202`): duplicate-name check, conflict resolution, the
zero-valid guard, the course insert, the schedule insert loop, and the
notification POST.  `notifStatus`/`notifText` are the oracle for the
notification service's HTTP response.  An `.error` models an exception
escaping the block (which rolls the transaction back); an `.ok` carries the
committed database and the endpoint's return value. -/
def createCourseTx (course_data : CourseCreate) (schedule_data : List ScheduleCreate)
    (integrityFail : Nat → Bool) (notifStatus : Nat) (notifText : String) (db : DB) :
    Except PyError (DB × CreateCourseResult) :=
  if db.courses.any (fun c => c.data.name == course_data.name) then
    .error (.http 400 "Course with this name already exists")
  else
    let resolved := resolveSchedules schedule_data
    if resolved.1.isEmpty then
      .error (.http 400 "No valid schedules provided")
    else
      let course_id := db.nextCourseId
      match insertSchedules integrityFail course_id db.nextScheduleId 0 resolved.1 with
      | .error e => .error e
      | .ok (rows, inserted_schedule_ids, schedules) =>
        let db2 : DB :=
          { courses := db.courses ++ [⟨course_id, course_data⟩]
            schedules := db.schedules ++ rows
            nextCourseId := course_id + 1
            nextScheduleId := db.nextScheduleId + inserted_schedule_ids.length }
        if inserted_schedule_ids.isEmpty then
          .ok (db2,
            { message := "Course and schedules processed successfully"
              valid_schedules := resolved.1
              conflicted_schedules := resolved.2
              schedules := schedules
              notifications := "No notifications sent"
              course_id := course_id
              schedule_ids := inserted_schedule_ids })
        else if notifStatus != 200 then
          .error (.http 500 ("Failed to send notifications: " ++ notifText))
        else
          .ok (db2,
            { message := "Course and schedules processed successfully"
              valid_schedules := resolved.1
              conflicted_schedules := resolved.2
              schedules := schedules
              notifications := "Sent successfully"
              course_id := course_id
              schedule_ids := inserted_schedule_ids })

/-- The whole `create_course` endpoint: the transaction body wrapped in
`try ... except IntegrityError ... except Exception` (`main.py:95-227`).
`except IntegrityError` re-raises as HTTP 400 `"Integrity error: ..."`;
`except Exception` catches everything else — including the
`HTTPException`s raised inside, since `HTTPException` subclasses
`Exception` — and re-raises as HTTP 500 `"Unexpected error: str(e)"`.
The pair is (response, database after the call): on any exception the
`session.begin()` context manager rolls back, leaving `db` unchanged. -/
def create_course (course_data : CourseCreate) (schedule_data : List ScheduleCreate)
    (integrityFail : Nat → Bool) (notifStatus : Nat) (notifText : String) (db : DB) :
    Except (Nat × String) CreateCourseResult × DB :=
  match createCourseTx course_data schedule_data integrityFail notifStatus notifText db with
  | .ok (db2, res) => (.ok res, db2)
  | .error (.integrity msg) => (.error (400, "Integrity error: " ++ msg), db)
  | .error e => (.error (500, "Unexpected error: " ++ e.str), db)

/-- One Celery task enqueued by `celery_app.send_task('tasks.send_message_task',
args=[schedule_id, course_id], eta=eta_time)`. -/
structure CeleryTask where
  schedule_id : Nat
  course_id : Nat
  eta : AwareDateTime
deriving DecidableEq, Repr

/-- `send_notification` in `Notification_Service/main.py:11-45`:
`schedule_time = [fromisoformat(t) - timedelta(hours=1) for t in schedule_time_str]`,
then one task per `zip(schedule_time, schedule_ids)` pair.  Returns the
enqueued tasks and the `notification_time` echoed in the response. -/
def send_notification (course_id : Nat) (schedule_ids : List Nat)
    (schedule_time_str : List AwareDateTime) : List CeleryTask × List AwareDateTime :=
  let schedule_time := schedule_time_str.map (fun t => subHours t 1)
  ((schedule_time.zip schedule_ids).map (fun p => ⟨p.2, course_id, p.1⟩),
    schedule_time)

/-- The log line written by the worker's `except` clause
(`logging.error(f"Error sending message: \x7be\x7d")`). -/
def workerLogMsg : String := "Error sending message"

/-- The `for user in users: await bot.send_message(...)` loop of
`send_notification_to_user` (`Telegram_Bot/main.py`).  `sendOk u` is the
delivery oracle: whether `bot.send_message(u, ...)` returns normally.  The
loop sits INSIDE the function-wide `try`, with no `try` of its own, so the
first raising send jumps to the `except` clause: the returned pair is the
list of users for whom a send was attempted, and the log entry written by
the `except` clause, if any. -/
def deliverLoop (sendOk : Nat → Bool) : List Nat → List Nat × Option String
  | [] => ([], none)
  | u :: rest =>
    if sendOk u then
      let r := deliverLoop sendOk rest
      (u :: r.1, r.2)
    else
      ([u], some workerLogMsg)

/-- `send_notification_to_user(schedule_id, course_id)`: the two gateway
lookups (course name at index 0 of the `/courses/\x7bcourse_id\x7d` response, the
`users` list of `/enroll/\x7bschedule_id\x7d`) are oracles whose `.error` case
models any exception raised while performing them, caught by the same
function-wide `except`.  The result is (users with an attempted delivery,
logged error if any); the coroutine itself never propagates an
exception. -/
def send_notification_to_user (courseLookup : Except String String)
    (usersLookup : Except String (List Nat)) (sendOk : Nat → Bool) :
    List Nat × Option String :=
  match courseLookup with
  | .error _ => ([], some workerLogMsg)
  | .ok _ =>
    match usersLookup with
    | .error _ => ([], some workerLogMsg)
    | .ok users => deliverLoop sendOk users

/-- Concrete course payload used by the closed-instance theorems. -/
def courseA : CourseCreate := ⟨"Java 3.0", "asdgadfg", some 10032, 1⟩

/-- A fresh, empty database. -/
def db0 : DB := ⟨[], [], 1, 1⟩

/-- A database already holding a course named like `courseA`. -/
def dbDup : DB := ⟨[⟨1, courseA⟩], [], 2, 1⟩

/-- Concrete schedule: day 20067, 10:00-12:00. -/
def schedA : ScheduleCreate := ⟨20067, 20067, 600, 720⟩

/-- Concrete schedule on a different day than `schedA`: day 20068,
09:00-10:00. -/
def schedB : ScheduleCreate := ⟨20068, 20068, 540, 600⟩

/-- Concrete schedule overlapping `schedA` on the same day: 11:00-13:00. -/
def schedC : ScheduleCreate := ⟨20067, 20067, 660, 780⟩

/-- Concrete schedule back-to-back after `schedA`: 12:00-13:00 on the same
day. -/
def schedD : ScheduleCreate := ⟨20067, 20067, 720, 780⟩

/-- The all-successful store oracle: no insert hits the uniqueness
constraint. -/
def noIntegrityFail : Nat → Bool := fun _ => false

/-- Store oracle whose first insert of the batch hits the uniqueness
constraint. -/
def failFirstInsert : Nat → Bool := fun i => i == 0

/-- The exact result `create_course` returns for `courseA` with the single
schedule `schedA` over the empty database `db0`. -/
def resA : CreateCourseResult :=
  { message := "Course and schedules processed successfully"
    valid_schedules := [schedA]
    conflicted_schedules := []
    schedules := [⟨(combine 20067 600 : Int), 300⟩]
    notifications := "Sent successfully"
    course_id := 1
    schedule_ids := [1] }

@[simp]
theorem hasConflict_nil (s : ScheduleCreate) : hasConflict [] s = false := rfl

theorem hasConflict_append (a b : List OccEntry) (s : ScheduleCreate) :
    hasConflict (a ++ b) s = (hasConflict a s || hasConflict b s) := by
  simp [hasConflict, List.filter_append, List.any_append]

theorem hasConflict_singleton (x : OccEntry) (s : ScheduleCreate) :
    hasConflict [x] s =
      ((x.1 == s.start_date) &&
        (decide (s.start_time < x.2.2) && decide (s.end_time > x.2.1))) := by
  by_cases h : x.1 == s.start_date <;> simp [hasConflict, List.filter, h]

theorem resolveSchedulesAux_length (l : List ScheduleCreate) :
    ∀ occupied, (resolveSchedulesAux occupied l).1.length
      + (resolveSchedulesAux occupied l).2.length = l.length := by
  induction l with
  | nil => intro occupied; rfl
  | cons s rest ih =>
    intro occupied
    by_cases h1 : s.end_date < s.start_date
    · have := ih occupied
      simp only [resolveSchedulesAux, if_pos h1, List.length_cons]
      omega
    · by_cases h2 : hasConflict occupied s
      · have := ih occupied
        simp only [resolveSchedulesAux, if_neg h1, if_pos h2, List.length_cons]
        omega
      · have := ih (occupied ++ [(s.start_date, s.start_time, s.end_time)])
        simp only [resolveSchedulesAux, if_neg h1, if_neg h2, List.length_cons]
        omega

theorem resolveSchedulesAux_valid_sublist (l : List ScheduleCreate) :
    ∀ occupied, ((resolveSchedulesAux occupied l).1).Sublist l := by
  induction l with
  | nil => intro occupied; simp [resolveSchedulesAux]
  | cons s rest ih =>
    intro occupied
    by_cases h1 : s.end_date < s.start_date
    · simp only [resolveSchedulesAux, if_pos h1]
      exact (ih occupied).cons s
    · by_cases h2 : hasConflict occupied s
      · simp only [resolveSchedulesAux, if_neg h1, if_pos h2]
        exact (ih occupied).cons s
      · simp only [resolveSchedulesAux, if_neg h1, if_neg h2]
        exact (ih (occupied ++ [(s.start_date, s.start_time, s.end_time)])).cons₂ s

theorem resolveSchedulesAux_conflicted_sublist (l : List ScheduleCreate) :
    ∀ occupied, (((resolveSchedulesAux occupied l).2).map Prod.fst).Sublist l := by
  induction l with
  | nil => intro occupied; simp [resolveSchedulesAux]
  | cons s rest ih =>
    intro occupied
    by_cases h1 : s.end_date < s.start_date
    · simp only [resolveSchedulesAux, if_pos h1, List.map_cons]
      exact (ih occupied).cons₂ s
    · by_cases h2 : hasConflict occupied s
      · simp only [resolveSchedulesAux, if_neg h1, if_pos h2, List.map_cons]
        exact (ih occupied).cons₂ s
      · simp only [resolveSchedulesAux, if_neg h1, if_neg h2]
        exact (ih (occupied ++ [(s.start_date, s.start_time, s.end_time)])).cons s

theorem mem_valid_hasConflict_false (l : List ScheduleCreate) :
    ∀ occupied s, s ∈ (resolveSchedulesAux occupied l).1 →
      hasConflict occupied s = false := by
  induction l with
  | nil => intro occupied s h; simp [resolveSchedulesAux] at h
  | cons t rest ih =>
    intro occupied s h
    by_cases h1 : t.end_date < t.start_date
    · simp only [resolveSchedulesAux, if_pos h1] at h
      exact ih occupied s h
    · by_cases h2 : hasConflict occupied t
      · simp only [resolveSchedulesAux, if_neg h1, if_pos h2] at h
        exact ih occupied s h
      · simp only [resolveSchedulesAux, if_neg h1, if_neg h2, List.mem_cons] at h
        rcases h with rfl | h
        · simpa using h2
        · have hno := ih (occupied ++ [(t.start_date, t.start_time, t.end_time)]) s h
          rw [hasConflict_append] at hno
          exact (Bool.or_eq_false_iff.mp hno).1

theorem resolveSchedulesAux_pairwise (l : List ScheduleCreate) :
    ∀ occupied, ((resolveSchedulesAux occupied l).1).Pairwise
      (fun existing cand => cand.start_date = existing.start_date →
        ¬(cand.start_time < existing.end_time ∧ cand.end_time > existing.start_time)) := by
  induction l with
  | nil => intro occupied; simp [resolveSchedulesAux]
  | cons t rest ih =>
    intro occupied
    by_cases h1 : t.end_date < t.start_date
    · simp only [resolveSchedulesAux, if_pos h1]
      exact ih occupied
    · by_cases h2 : hasConflict occupied t
      · simp only [resolveSchedulesAux, if_neg h1, if_pos h2]
        exact ih occupied
      · simp only [resolveSchedulesAux, if_neg h1, if_neg h2]
        refine List.Pairwise.cons ?_
          (ih (occupied ++ [(t.start_date, t.start_time, t.end_time)]))
        intro s hs hd
        have hno := mem_valid_hasConflict_false rest _ s hs
        rw [hasConflict_append] at hno
        have h3 := (Bool.or_eq_false_iff.mp hno).2
        rw [hasConflict_singleton] at h3
        intro hc
        simp only [hd, beq_self_eq_true, Bool.true_and, Bool.and_eq_false_iff,
          decide_eq_false_iff_not] at h3
        rcases h3 with h3 | h3
        · exact h3 hc.1
        · exact h3 hc.2

/-- C1: for every candidate list fed to `create_course`, no two schedules
placed in `valid_schedules` that share the same start date overlap under
the loop's open-interval test (a later candidate against an earlier
accepted one uses `candidate.start_time < existing.end_time AND
candidate.end_time > existing.start_time`); consequently two back-to-back
candidates (one's end time equal to the other's start time) are both
accepted. -/
theorem create_course_valid_no_overlap (schedule_data : List ScheduleCreate) :
    ((resolveSchedules schedule_data).1.Pairwise
      (fun existing cand => cand.start_date = existing.start_date →
        ¬(cand.start_time < existing.end_time ∧ cand.end_time > existing.start_time)))
    ∧ (∀ a b : ScheduleCreate, a.start_date ≤ a.end_date → b.start_date ≤ b.end_date →
        b.start_time = a.end_time → resolveSchedules [a, b] = ([a, b], [])) := by
  constructor
  · exact resolveSchedulesAux_pairwise schedule_data []
  · intro a b ha hb hbt
    have ha2 : ¬ a.end_date < a.start_date := Nat.not_lt.mpr ha
    have hb2 : ¬ b.end_date < b.start_date := Nat.not_lt.mpr hb
    have hca : hasConflict [] a = false := rfl
    have hcb : hasConflict [(a.start_date, a.start_time, a.end_time)] b = false := by
      rw [hasConflict_singleton]
      simp only [hbt, Bool.and_eq_false_iff]
      right; left
      simp
    simp [resolveSchedules, resolveSchedulesAux, ha2, hb2, hca, hcb]

/-- C1 witness: back-to-back schedules 10:00-12:00 and 12:00-13:00 on the
same day are both accepted, and the accepted partition is overlap-free. -/
theorem create_course_valid_no_overlap_witness :
    ((resolveSchedules [schedA, schedD]).1.Pairwise
      (fun existing cand => cand.start_date = existing.start_date →
        ¬(cand.start_time < existing.end_time ∧ cand.end_time > existing.start_time)))
    ∧ resolveSchedules [schedA, schedD] = ([schedA, schedD], []) :=
  ⟨(create_course_valid_no_overlap [schedA, schedD]).1,
    (create_course_valid_no_overlap [schedA, schedD]).2 schedA schedD
      (by decide) (by decide) (by decide)⟩

/-- C2: the conflict-resolution loop of `create_course` places every
candidate in exactly one partition — the lengths of `valid_schedules` and
`conflicted_schedules` sum to the input length — and each partition is a
sublist of the input, i.e. preserves encounter order. -/
theorem create_course_partition_complete (schedule_data : List ScheduleCreate) :
    (resolveSchedules schedule_data).1.length
        + (resolveSchedules schedule_data).2.length = schedule_data.length
    ∧ (resolveSchedules schedule_data).1.Sublist schedule_data
    ∧ (((resolveSchedules schedule_data).2).map Prod.fst).Sublist schedule_data :=
  ⟨resolveSchedulesAux_length schedule_data [],
    resolveSchedulesAux_valid_sublist schedule_data [],
    resolveSchedulesAux_conflicted_sublist schedule_data []⟩

/-- C7: the resolver is first-come-first-accepted — for two mutually
conflicting candidates with well-formed date ranges on the same start
date, `[A, B]` accepts `A` and rejects `B` with the time-conflict reason,
and `[B, A]` accepts `B` and rejects `A`. -/
theorem resolver_order_sensitive (A B : ScheduleCreate)
    (hA : A.start_date ≤ A.end_date) (hB : B.start_date ≤ B.end_date)
    (hdate : A.start_date = B.start_date)
    (h1 : B.start_time < A.end_time) (h2 : B.end_time > A.start_time)
    (h3 : A.start_time < B.end_time) (h4 : A.end_time > B.start_time) :
    resolveSchedules [A, B] = ([A], [(B, timeConflictReason)])
    ∧ resolveSchedules [B, A] = ([B], [(A, timeConflictReason)]) := by
  have hA2 : ¬ A.end_date < A.start_date := Nat.not_lt.mpr hA
  have hB2 : ¬ B.end_date < B.start_date := Nat.not_lt.mpr hB
  constructor
  · have hcB : hasConflict [(A.start_date, A.start_time, A.end_time)] B = true := by
      rw [hasConflict_singleton]
      simp [hdate, h1, h2]
    simp [resolveSchedules, resolveSchedulesAux, hA2, hB2, hcB]
  · have hcA : hasConflict [(B.start_date, B.start_time, B.end_time)] A = true := by
      rw [hasConflict_singleton]
      simp [hdate, h3, h4]
    simp [resolveSchedules, resolveSchedulesAux, hA2, hB2, hcA]

/-- C7 witness: 10:00-12:00 and 11:00-13:00 on the same day, in both
submission orders. -/
theorem resolver_order_sensitive_witness :
    resolveSchedules [schedA, schedC] = ([schedA], [(schedC, timeConflictReason)])
    ∧ resolveSchedules [schedC, schedA] = ([schedC], [(schedA, timeConflictReason)]) :=
  resolver_order_sensitive schedA schedC (by decide) (by decide) (by decide)
    (by decide) (by decide) (by decide) (by decide)

theorem insertSchedules_ok_inv (intF : Nat → Bool) (cid : Nat)
    (l : List ScheduleCreate) :
    ∀ (n i : Nat) (rows : List ScheduleRow) (ids : List Nat)
      (times : List AwareDateTime),
      insertSchedules intF cid n i l = .ok (rows, ids, times) →
      times = l.map scheduleTimeStr ∧ ids.length = l.length := by
  induction l with
  | nil =>
    intro n i rows ids times h
    simp only [insertSchedules, Except.ok.injEq, Prod.mk.injEq] at h
    obtain ⟨rfl, rfl, rfl⟩ := h
    simp
  | cons s rest ih =>
    intro n i rows ids times h
    simp only [insertSchedules] at h
    split at h
    · exact absurd h (by simp)
    · cases hrec : insertSchedules intF cid (n + 1) (i + 1) rest with
      | error e => rw [hrec] at h; exact absurd h (by simp)
      | ok trip =>
        obtain ⟨r2, i2, t2⟩ := trip
        rw [hrec] at h
        simp only [Except.ok.injEq, Prod.mk.injEq] at h
        obtain ⟨rfl, rfl, rfl⟩ := h
        obtain ⟨ht, hl⟩ := ih (n + 1) (i + 1) r2 i2 t2 hrec
        simp [ht, hl]

theorem insertSchedules_no_fail (intF : Nat → Bool) (hF : ∀ j, intF j = false)
    (cid : Nat) (l : List ScheduleCreate) :
    ∀ (n i : Nat), ∃ rows ids,
      insertSchedules intF cid n i l = .ok (rows, ids, l.map scheduleTimeStr)
      ∧ ids.length = l.length := by
  induction l with
  | nil => intro n i; exact ⟨[], [], rfl, rfl⟩
  | cons s rest ih =>
    intro n i
    obtain ⟨rows, ids, heq, hlen⟩ := ih (n + 1) (i + 1)
    refine ⟨⟨n, cid, s⟩ :: rows, n :: ids, ?_, by simp [hlen]⟩
    simp [insertSchedules, hF i, heq]

theorem valid_nonempty_cons (schedule_data : List ScheduleCreate)
    (hvalid : (resolveSchedules schedule_data).1 ≠ []) :
    ∃ v vs, (resolveSchedules schedule_data).1 = v :: vs := by
  cases h : (resolveSchedules schedule_data).1 with
  | nil => exact absurd h hvalid
  | cons a b => exact ⟨a, b, rfl⟩

/-- C6: a `create_course` request whose course name matches an
already-stored course fails — the duplicate-name `HTTPException` is
re-raised by the endpoint's generic handler — and persists nothing: the
database after the call is unchanged, so no second course row and no
schedule rows exist. -/
theorem create_course_duplicate_name_rejected (course_data : CourseCreate)
    (schedule_data : List ScheduleCreate) (integrityFail : Nat → Bool)
    (notifStatus : Nat) (notifText : String) (db : DB)
    (hdup : db.courses.any (fun c => c.data.name == course_data.name) = true) :
    create_course course_data schedule_data integrityFail notifStatus notifText db
      = (.error (500, "Unexpected error: 400: Course with this name already exists"), db) := by
  unfold create_course createCourseTx
  simp [hdup]
  rfl

/-- C6 witness: creating `courseA` again over a database that already holds
a course named `"Java 3.0"`. -/
theorem create_course_duplicate_name_rejected_witness :
    create_course courseA [schedA] noIntegrityFail 200 "" dbDup
      = (.error (500, "Unexpected error: 400: Course with this name already exists"), dbDup) :=
  create_course_duplicate_name_rejected courseA [schedA] noIntegrityFail 200 "" dbDup rfl

/-- C5 counterexample: with an empty candidate list, `create_course` does
NOT return a structured result — it raises `HTTPException(400, "No valid
schedules provided")`, which the endpoint's own `except Exception` clause
re-raises as a 500 hard failure. -/
theorem create_course_zero_valid_counterexample :
    create_course courseA [] noIntegrityFail 200 "" db0
      = (.error (500, "Unexpected error: 400: No valid schedules provided"), db0) := rfl

/-- C5 (amended): whenever the candidate list yields zero valid schedules
and the course name is fresh, `create_course` aborts with the hard failure
500 "Unexpected error: 400: No valid schedules provided" (the inner 400 is
swallowed by the generic handler) and leaves the database unchanged. -/
theorem create_course_zero_valid_aborts (course_data : CourseCreate)
    (schedule_data : List ScheduleCreate) (integrityFail : Nat → Bool)
    (notifStatus : Nat) (notifText : String) (db : DB)
    (hdup : db.courses.any (fun c => c.data.name == course_data.name) = false)
    (hvalid : (resolveSchedules schedule_data).1 = []) :
    create_course course_data schedule_data integrityFail notifStatus notifText db
      = (.error (500, "Unexpected error: 400: No valid schedules provided"), db) := by
  unfold create_course createCourseTx
  simp [hdup, hvalid]
  rfl

/-- C5 witness: a single candidate whose end date precedes its start date
is rejected by the resolver, so the valid partition is empty and the call
aborts. -/
theorem create_course_zero_valid_aborts_witness :
    create_course courseA [⟨20067, 20060, 600, 720⟩] noIntegrityFail 200 "" db0
      = (.error (500, "Unexpected error: 400: No valid schedules provided"), db0) :=
  create_course_zero_valid_aborts courseA [⟨20067, 20060, 600, 720⟩]
    noIntegrityFail 200 "" db0 rfl rfl

/-- C3 counterexample: the valid batch `[schedA, schedB]` with the store
raising `IntegrityError` on its first insert.  The whole call aborts with
HTTP 400 and the database is unchanged: `schedB` is NOT persisted and
`schedA` is NOT moved to `conflicted` — there is no per-schedule
`try/except` in the insert loop. -/
theorem create_course_integrity_error_counterexample :
    create_course courseA [schedA, schedB] failFirstInsert 200 "" db0
      = (.error (400, "Integrity error: " ++ integrityMsg), db0) := rfl

/-- C3 (amended): an `IntegrityError` raised while persisting an
individual schedule propagates out of the transaction block and is caught
only by the endpoint-level `except IntegrityError`, aborting the whole
call with HTTP 400 "Integrity error: ..."; the transaction rolls back, so
no course row and no schedule rows from the batch remain persisted and no
schedule is re-tagged as conflicted. -/
theorem create_course_integrity_error_aborts (course_data : CourseCreate)
    (schedule_data : List ScheduleCreate) (integrityFail : Nat → Bool)
    (notifStatus : Nat) (notifText : String) (db : DB)
    (hdup : db.courses.any (fun c => c.data.name == course_data.name) = false)
    (hvalid : (resolveSchedules schedule_data).1 ≠ [])
    (hfail : integrityFail 0 = true) :
    create_course course_data schedule_data integrityFail notifStatus notifText db
      = (.error (400, "Integrity error: " ++ integrityMsg), db) := by
  obtain ⟨v, vs, hv⟩ := valid_nonempty_cons schedule_data hvalid
  unfold create_course createCourseTx
  simp [hdup, hv, insertSchedules, hfail]

/-- C3 witness: a fresh course with one valid schedule and a store whose
first insert violates the uniqueness constraint. -/
theorem create_course_integrity_error_aborts_witness :
    create_course courseA [schedA] failFirstInsert 200 "" db0
      = (.error (400, "Integrity error: " ++ integrityMsg), db0) :=
  create_course_integrity_error_aborts courseA [schedA] failFirstInsert 200 "" db0
    rfl (by decide) rfl

/-- C4 counterexample: a fresh course with one valid schedule whose
notification POST answers 500.  `create_course` raises inside the
transaction block, so the already-inserted course and schedule rows are
rolled back (the database is unchanged) and the call returns an overall
500 error — not a success with a distinct notification-failure flag. -/
theorem create_course_notification_failure_counterexample :
    create_course courseA [schedA] noIntegrityFail 500 "boom" db0
      = (.error (500, "Unexpected error: 500: Failed to send notifications: boom"), db0) := rfl

/-- C4 (amended): if the notification dispatch returns a non-200 status,
`create_course` raises `HTTPException(500)` INSIDE `async with
session.begin()`; the persisted course and schedule rows ARE rolled back
and the whole call fails with an overall 500 error, rather than returning
success-for-persistence with a distinct notification outcome. -/
theorem create_course_notification_failure_rolls_back (course_data : CourseCreate)
    (schedule_data : List ScheduleCreate) (notifStatus : Nat) (notifText : String)
    (db : DB)
    (hdup : db.courses.any (fun c => c.data.name == course_data.name) = false)
    (hvalid : (resolveSchedules schedule_data).1 ≠ [])
    (hns : notifStatus ≠ 200) :
    create_course course_data schedule_data noIntegrityFail notifStatus notifText db
      = (.error (500, "Unexpected error: "
          ++ PyError.str (.http 500 ("Failed to send notifications: " ++ notifText))), db) := by
  obtain ⟨v, vs, hv⟩ := valid_nonempty_cons schedule_data hvalid
  obtain ⟨rows, ids, heq, hlen⟩ :=
    insertSchedules_no_fail noIntegrityFail (fun _ => rfl) db.nextCourseId
      (v :: vs) db.nextScheduleId 0
  have hids : ids.isEmpty = false := by
    cases ids with
    | nil => simp at hlen
    | cons a b => rfl
  unfold create_course createCourseTx
  simp [hdup, hv, heq, hids, hns]

/-- C4 witness: one valid schedule, notification service answering 500
with body "queue unreachable". -/
theorem create_course_notification_failure_rolls_back_witness :
    create_course courseA [schedB] noIntegrityFail 500 "queue unreachable" db0
      = (.error (500, "Unexpected error: "
          ++ PyError.str (.http 500 ("Failed to send notifications: " ++ "queue unreachable"))), db0) :=
  create_course_notification_failure_rolls_back courseA [schedB] 500
    "queue unreachable" db0 rfl (by decide) (by decide)

/-- C10: every database write of `create_course` sits inside the single
`async with session.begin()` scope, so whenever the call ends in an error
— duplicate name, zero valid schedules, an integrity error on any insert,
or a failed notification dispatch — the database after the call equals
the database before it: no course row and no schedule rows from this call
remain persisted. -/
theorem create_course_error_leaves_db_unchanged (course_data : CourseCreate)
    (schedule_data : List ScheduleCreate) (integrityFail : Nat → Bool)
    (notifStatus : Nat) (notifText : String) (db : DB) (err : Nat × String)
    (h : (create_course course_data schedule_data integrityFail notifStatus notifText db).1
      = .error err) :
    (create_course course_data schedule_data integrityFail notifStatus notifText db).2
      = db := by
  unfold create_course at h ⊢
  cases htx : createCourseTx course_data schedule_data integrityFail notifStatus notifText db with
  | ok p =>
    obtain ⟨db2, res⟩ := p
    rw [htx] at h
    simp at h
  | error e =>
    cases e <;> rfl

/-- C10 witness: the notification-failure run leaves the database exactly
as it was. -/
theorem create_course_error_leaves_db_unchanged_witness :
    (create_course courseA [schedA] noIntegrityFail 500 "boom" db0).2 = db0 :=
  create_course_error_leaves_db_unchanged courseA [schedA] noIntegrityFail 500 "boom" db0
    (500, "Unexpected error: 500: Failed to send notifications: boom") rfl

theorem createCourseTx_ok_inv {course_data : CourseCreate}
    {schedule_data : List ScheduleCreate} {integrityFail : Nat → Bool}
    {notifStatus : Nat} {notifText : String} {db db2 : DB} {res : CreateCourseResult}
    (h : createCourseTx course_data schedule_data integrityFail notifStatus notifText db
      = .ok (db2, res)) :
    res.schedules = (resolveSchedules schedule_data).1.map scheduleTimeStr
    ∧ res.schedule_ids.length = (resolveSchedules schedule_data).1.length := by
  simp only [createCourseTx] at h
  split at h
  · exact absurd h (by simp)
  · split at h
    · exact absurd h (by simp)
    · cases hins : insertSchedules integrityFail db.nextCourseId db.nextScheduleId 0
          (resolveSchedules schedule_data).1 with
      | error e => rw [hins] at h; exact absurd h (by simp)
      | ok trip =>
        obtain ⟨rows, ids, times⟩ := trip
        rw [hins] at h
        obtain ⟨ht, hl⟩ := insertSchedules_ok_inv integrityFail db.nextCourseId
          (resolveSchedules schedule_data).1 db.nextScheduleId 0 rows ids times hins
        simp at h
        split at h
        · simp only [Except.ok.injEq, Prod.mk.injEq] at h
          obtain ⟨-, h2⟩ := h
          subst h2
          exact ⟨ht, hl⟩
        · split at h
          · simp only [Except.ok.injEq, Prod.mk.injEq] at h
            obtain ⟨-, h2⟩ := h
            subst h2
            exact ⟨ht, hl⟩
          · exact absurd h (by simp)

/-- C8: for every successful `create_course` run, feeding its returned
`course_id`, `schedule_ids` and ISO timestamp list into the notification
service's `send_notification` enqueues tasks whose `eta` is exactly
`datetime.combine(start_date, start_time) - timedelta(hours=1)` for each
persisted (valid) schedule; in particular a schedule starting at 10:00
+05:00 on any day yields an eta of 09:00 +05:00 the same day. -/
theorem reminder_eta_one_hour_before_start (course_data : CourseCreate)
    (schedule_data : List ScheduleCreate) (integrityFail : Nat → Bool)
    (notifStatus : Nat) (notifText : String) (db : DB) (res : CreateCourseResult)
    (h : (create_course course_data schedule_data integrityFail notifStatus notifText db).1
      = .ok res) :
    ((send_notification res.course_id res.schedule_ids res.schedules).1.map CeleryTask.eta
      = (resolveSchedules schedule_data).1.map
          (fun s => ⟨(combine s.start_date s.start_time : Int) - 60, 300⟩))
    ∧ ∀ day : Nat, subHours ⟨(combine day 600 : Int), 300⟩ 1
        = ⟨(combine day 540 : Int), 300⟩ := by
  constructor
  · unfold create_course at h
    cases htx : createCourseTx course_data schedule_data integrityFail notifStatus notifText db with
    | error e => rw [htx] at h; cases e <;> simp at h
    | ok p =>
      obtain ⟨db2, res0⟩ := p
      rw [htx] at h
      simp only at h
      replace h : res0 = res := by simpa using h
      subst h
      obtain ⟨hsched, hlen⟩ := createCourseTx_ok_inv htx
      simp only [send_notification]
      rw [List.map_map]
      have hcomp : (CeleryTask.eta ∘ fun p : AwareDateTime × Nat =>
          (⟨p.2, res0.course_id, p.1⟩ : CeleryTask)) = Prod.fst := rfl
      rw [hcomp]
      have hle : (res0.schedules.map (fun t => subHours t 1)).length
          ≤ res0.schedule_ids.length := by
        simp [hsched, hlen]
      rw [List.map_fst_zip _ _ hle, hsched, List.map_map]
      have hfun : ((fun t => subHours t 1) ∘ scheduleTimeStr)
          = fun s => (⟨(combine s.start_date s.start_time : Int) - 60, 300⟩ : AwareDateTime) := by
        funext s
        simp [subHours, scheduleTimeStr]
      rw [hfun]
  · intro day
    have harith : (combine day 600 : Int) - 60 = (combine day 540 : Int) := by
      simp only [combine]
      push_cast
      ring
    simp [subHours, harith]

/-- C8 witness: applying the eta theorem to the concrete successful run
and to day 20067 (start 10:00 +05:00 → eta 09:00 +05:00). -/
theorem reminder_eta_one_hour_before_start_witness :
    ((send_notification resA.course_id resA.schedule_ids resA.schedules).1.map CeleryTask.eta
      = (resolveSchedules [schedA]).1.map
          (fun s => ⟨(combine s.start_date s.start_time : Int) - 60, 300⟩))
    ∧ subHours ⟨(combine 20067 600 : Int), 300⟩ 1 = ⟨(combine 20067 540 : Int), 300⟩ :=
  ⟨(reminder_eta_one_hour_before_start courseA [schedA] noIntegrityFail 200 "" db0 resA rfl).1,
    (reminder_eta_one_hour_before_start courseA [schedA] noIntegrityFail 200 "" db0 resA rfl).2 20067⟩

theorem deliverLoop_stops_at_failure (sendOk : Nat → Bool) :
    ∀ (pre : List Nat) (u : Nat) (post : List Nat),
      (∀ v ∈ pre, sendOk v = true) → sendOk u = false →
      deliverLoop sendOk (pre ++ u :: post) = (pre ++ [u], some workerLogMsg) := by
  intro pre
  induction pre with
  | nil => intro u post _ hu; simp [deliverLoop, hu]
  | cons v vs ih =>
    intro u post hpre hu
    have hv : sendOk v = true := hpre v (by simp)
    have hrest := ih u post (fun w hw => hpre w (List.mem_cons_of_mem v hw)) hu
    simp [deliverLoop, hv, hrest]

/-- C9 (amended): in the reminder worker, a `bot.send_message` failure for
one enrolled user is caught and logged — the coroutine returns instead of
crashing — but the `try` wraps the whole function body, so the delivery
loop is aborted: every user before the first failing one is attempted, the
failing user is attempted, and the users after them receive no delivery
attempt at all. -/
theorem worker_failure_aborts_remaining (course_name : String) (sendOk : Nat → Bool)
    (pre : List Nat) (u : Nat) (post : List Nat)
    (hpre : ∀ v ∈ pre, sendOk v = true) (hu : sendOk u = false) :
    send_notification_to_user (.ok course_name) (.ok (pre ++ u :: post)) sendOk
      = (pre ++ [u], some workerLogMsg) := by
  simp only [send_notification_to_user]
  exact deliverLoop_stops_at_failure sendOk pre u post hpre hu

/-- C9 counterexample: two enrolled users, delivery to user 1 raising and
delivery to user 2 fine.  The attempted-delivery list is `[1]` — user 2,
who comes after the failing user, is never attempted, so the failure DOES
abort delivery to the remaining users. -/
theorem worker_failure_counterexample :
    send_notification_to_user (.ok "Java 3.0") (.ok [1, 2]) (fun u => u != 1)
      = ([1], some workerLogMsg)
    ∧ 2 ∉ (send_notification_to_user (.ok "Java 3.0") (.ok [1, 2]) (fun u => u != 1)).1 := by
  exact ⟨rfl, by decide⟩

/-- C9 witness: three users with the middle one failing — user 1 and the
failing user 2 are attempted, user 3 is not. -/
theorem worker_failure_aborts_remaining_witness :
    send_notification_to_user (.ok "Java 3.0") (.ok ([1] ++ 2 :: [3])) (fun u => u != 2)
      = ([1] ++ [2], some workerLogMsg) :=
  worker_failure_aborts_remaining "Java 3.0" (fun u => u != 2) [1] 2 [3]
    (by decide) (by decide)
